import Mathlib

/-!
# Verification of the LabelChecker column schema table

Shallow embedding of `src/schemas/LabelCheckerColumns.py`, which defines a
single module-level constant `column_name_types`: a dict mapping 80 column
names to pandas dtype values.  Each value is either `pd.ArrowDtype(t)` for a
pyarrow scalar type `t ∈ {string, float32, uint64}`, or the raw dtype string
"Datetime64[pyarrow]" (used for the three datetime columns).

The public contract of the table (per the specification) is:
`Lookup(name) → TypeTag` (dict indexing; absent key is the only failure) and
`Enumerate()` (dict iteration in insertion order).
-/

set_option maxHeartbeats 2000000

namespace LabelCheckerColumns

/-- The pyarrow scalar types that appear as `pa.…()` arguments in the source. -/
inductive PaType where
  | string
  | float32
  | uint64
  deriving DecidableEq, Repr

/-- A value stored in the `column_name_types` dict: either a
`pd.ArrowDtype(pa.…())` object or a raw dtype string such as
"Datetime64[pyarrow]". -/
inductive PandasDtype where
  | ArrowDtype (t : PaType)
  | dtypeString (s : String)
  deriving DecidableEq, Repr

/-- The `column_name_types` dict of `LabelCheckerColumns.py`, entry for entry
in source order (Python dicts preserve insertion order). -/
def column_name_types : List (String × PandasDtype) := [
  ("Name", .ArrowDtype .string),
  ("AbdArea", .ArrowDtype .float32),
  ("FilledArea", .ArrowDtype .float32),
  ("AspectRatio", .ArrowDtype .float32),
  ("AvgBlue", .ArrowDtype .float32),
  ("AvgGreen", .ArrowDtype .float32),
  ("AvgRed", .ArrowDtype .float32),
  ("BiovolumeCylinder", .ArrowDtype .float32),
  ("BiovolumePSpheroid", .ArrowDtype .float32),
  ("BiovolumeSphere", .ArrowDtype .float32),
  ("CalConst", .ArrowDtype .float32),
  ("CalImage", .ArrowDtype .uint64),
  ("Ch1Area", .ArrowDtype .float32),
  ("Ch1Peak", .ArrowDtype .float32),
  ("Ch1Width", .ArrowDtype .float32),
  ("Ch2Area", .ArrowDtype .float32),
  ("Ch2Peak", .ArrowDtype .float32),
  ("Ch2Width", .ArrowDtype .float32),
  ("Ch2Ch1Ratio", .ArrowDtype .float32),
  ("CircleFit", .ArrowDtype .float32),
  ("Circularity", .ArrowDtype .float32),
  ("CircularityHu", .ArrowDtype .float32),
  ("CollageFile", .ArrowDtype .string),
  ("Compactness", .ArrowDtype .float32),
  ("ConvexPerimeter", .ArrowDtype .float32),
  ("Convexity", .ArrowDtype .float32),
  ("Date", .dtypeString "Datetime64[pyarrow]"),
  ("AbdDiameter", .ArrowDtype .float32),
  ("EsdDiameter", .ArrowDtype .float32),
  ("FdDiameter", .ArrowDtype .float32),
  ("EdgeGradient", .ArrowDtype .float32),
  ("ElapsedTime", .ArrowDtype .float32),
  ("Elongation", .ArrowDtype .float32),
  ("FeretMaxAngle", .ArrowDtype .float32),
  ("FeretMinAngle", .ArrowDtype .float32),
  ("FiberCurl", .ArrowDtype .float32),
  ("FiberStraightness", .ArrowDtype .float32),
  ("FilterScore", .ArrowDtype .float32),
  ("GeodesicAspectRatio", .ArrowDtype .float32),
  ("GeodesicLength", .ArrowDtype .float32),
  ("GeodesicThickness", .ArrowDtype .float32),
  ("GroupId", .ArrowDtype .uint64),
  ("Id", .ArrowDtype .uint64),
  ("ImageFilename", .ArrowDtype .string),
  ("ImageX", .ArrowDtype .uint64),
  ("ImageY", .ArrowDtype .uint64),
  ("ImageH", .ArrowDtype .uint64),
  ("ImageW", .ArrowDtype .uint64),
  ("Intensity", .ArrowDtype .float32),
  ("Length", .ArrowDtype .float32),
  ("Ppc", .ArrowDtype .uint64),
  ("Perimeter", .ArrowDtype .float32),
  ("RatioBlueGreen", .ArrowDtype .float32),
  ("RatioRedBlue", .ArrowDtype .float32),
  ("RatioRedGreen", .ArrowDtype .float32),
  ("Roughness", .ArrowDtype .float32),
  ("SigmaIntensity", .ArrowDtype .float32),
  ("SrcImage", .ArrowDtype .uint64),
  ("SrcX", .ArrowDtype .uint64),
  ("SrcY", .ArrowDtype .uint64),
  ("SphereComplement", .ArrowDtype .uint64),
  ("SphereCount", .ArrowDtype .uint64),
  ("SphereUnknown", .ArrowDtype .uint64),
  ("SphereVolume", .ArrowDtype .float32),
  ("SumIntensity", .ArrowDtype .uint64),
  ("Symmetry", .ArrowDtype .float32),
  ("Time", .dtypeString "Datetime64[pyarrow]"),
  ("Timestamp", .dtypeString "Datetime64[pyarrow]"),
  ("Transparency", .ArrowDtype .float32),
  ("Uuid", .ArrowDtype .string),
  ("AbdVolume", .ArrowDtype .float32),
  ("EsdVolume", .ArrowDtype .float32),
  ("Width", .ArrowDtype .float32),
  ("BiovolumeHSosik", .ArrowDtype .float32),
  ("SurfaceAreaHSosik", .ArrowDtype .float32),
  ("Preprocessing", .ArrowDtype .string),
  ("PreprocessingTrue", .ArrowDtype .string),
  ("ProbabilityScore", .ArrowDtype .float32),
  ("LabelPredicted", .ArrowDtype .string),
  ("LabelTrue", .ArrowDtype .string)]

/-- `Lookup(name)`: Python dict indexing `column_name_types[name]`.
`none` models the absent-key failure (`KeyError` / `UnknownColumnError`). -/
def lookupColumn (name : String) : Option PandasDtype :=
  column_name_types.lookup name

/-- `Enumerate()`: Python dict iteration `column_name_types.items()`,
which yields the (name, value) pairs in insertion order. -/
def enumerateColumns : List (String × PandasDtype) :=
  column_name_types

/-- The declared column names, in insertion order. -/
def declaredNames : List String :=
  column_name_types.map Prod.fst

/-- The four semantic type tags of the specification. -/
inductive TypeTag where
  | float32
  | uint64
  | string
  | datetime
  deriving DecidableEq, Repr

/-- The semantic kind of a stored dtype value: `pd.ArrowDtype` values carry
their pyarrow scalar type, and the raw dtype string "Datetime64[pyarrow]"
denotes the pandas datetime dtype.  Any other raw string would denote no tag
of the closed four-element set, hence `Option`. -/
def dtypeTag : PandasDtype → Option TypeTag
  | .ArrowDtype .float32 => some .float32
  | .ArrowDtype .uint64 => some .uint64
  | .ArrowDtype .string => some .string
  | .dtypeString s => if s = "Datetime64[pyarrow]" then some .datetime else none

/-- `Lookup(name)` abstracted to the type-tag level of the specification. -/
def lookupTag (name : String) : Option TypeTag :=
  (lookupColumn name).bind dtypeTag

/-- Whether a stored value is a `pd.ArrowDtype` object (as opposed to a raw
dtype string) — the `isinstance(value, pd.ArrowDtype)` test of a consumer. -/
def isArrowDtypeValue : PandasDtype → Bool
  | .ArrowDtype _ => true
  | .dtypeString _ => false

/-! ## Spec-side reference definitions (written from the specification text,
to be compared with the table embedded from the source). -/

/-- The full column list of the specification's §6, transcribed in the order
the spec gives it. -/
def specFullColumnList : List String := [
  "Name", "AbdArea", "FilledArea", "AspectRatio", "AvgBlue", "AvgGreen",
  "AvgRed", "BiovolumeCylinder", "BiovolumePSpheroid", "BiovolumeSphere",
  "CalConst", "CalImage", "Ch1Area", "Ch1Peak", "Ch1Width", "Ch2Area",
  "Ch2Peak", "Ch2Width", "Ch2Ch1Ratio", "CircleFit", "Circularity",
  "CircularityHu", "CollageFile", "Compactness", "ConvexPerimeter",
  "Convexity", "Date", "AbdDiameter", "EsdDiameter", "FdDiameter",
  "EdgeGradient", "ElapsedTime", "Elongation", "FeretMaxAngle",
  "FeretMinAngle", "FiberCurl", "FiberStraightness", "FilterScore",
  "GeodesicAspectRatio", "GeodesicLength", "GeodesicThickness", "GroupId",
  "Id", "ImageFilename", "ImageX", "ImageY", "ImageH", "ImageW",
  "Intensity", "Length", "Ppc", "Perimeter", "RatioBlueGreen",
  "RatioRedBlue", "RatioRedGreen", "Roughness", "SigmaIntensity",
  "SrcImage", "SrcX", "SrcY", "SphereComplement", "SphereCount",
  "SphereUnknown", "SphereVolume", "SumIntensity", "Symmetry", "Time",
  "Timestamp", "Transparency", "Uuid", "AbdVolume", "EsdVolume", "Width",
  "BiovolumeHSosik", "SurfaceAreaHSosik", "Preprocessing",
  "PreprocessingTrue", "ProbabilityScore", "LabelPredicted", "LabelTrue"]

/-- The spec's exact set of uint64-typed columns (§8). -/
def specUint64Columns : List String := [
  "CalImage", "GroupId", "Id", "ImageX", "ImageY", "ImageH", "ImageW",
  "Ppc", "SrcImage", "SrcX", "SrcY", "SphereComplement", "SphereCount",
  "SphereUnknown", "SumIntensity"]

/-- The spec's exact set of datetime-typed columns (§6 and §8). -/
def specDatetimeColumns : List String := ["Date", "Time", "Timestamp"]

/-- The string-typed columns per the spec's §6 row
(Name, CollageFile, ImageFilename, Uuid, Preprocessing, LabelPredicted,
LabelTrue, …), with the single column elided behind the ellipsis,
PreprocessingTrue, filled in. -/
def specStringColumns : List String := [
  "Name", "CollageFile", "ImageFilename", "Uuid", "Preprocessing",
  "PreprocessingTrue", "LabelPredicted", "LabelTrue"]

/-- The spec's reference type for a declared column name: datetime, uint64
and string columns are the spec's exact sets; every remaining declared
column is float32 (the spec's §6 float32 row with its ellipsis expanded). -/
def specTypeOf (name : String) : TypeTag :=
  if name ∈ specDatetimeColumns then .datetime
  else if name ∈ specUint64Columns then .uint64
  else if name ∈ specStringColumns then .string
  else .float32

/-- The spec's §6 interface as a literal reference table: each column of the
full list paired with its reference type tag, in the spec's order. -/
def specReferenceTable : List (String × TypeTag) :=
  specFullColumnList.map (fun n => (n, specTypeOf n))

/-! ## State-threaded operational model of the read-only interface,
used to state the frame property (the table is never mutated). -/

/-- The two operations of the table's public contract. -/
inductive SchemaOp where
  | lookupOp (name : String)
  | enumerateOp
  deriving DecidableEq, Repr

/-- What one operation observes. -/
inductive SchemaObs where
  | found (d : Option PandasDtype)
  | listed (l : List (String × PandasDtype))
  deriving DecidableEq, Repr

/-- One step of the interface on an explicit table state: each operation
reads the table and returns it unchanged, exactly as Python dict indexing
and iteration behave. -/
def stepOp (t : List (String × PandasDtype)) :
    SchemaOp → SchemaObs × List (String × PandasDtype)
  | .lookupOp n => (.found (t.lookup n), t)
  | .enumerateOp => (.listed t, t)

/-- Run a sequence of interface operations, threading the table state. -/
def runOps (t : List (String × PandasDtype)) : List SchemaOp → List (String × PandasDtype)
  | [] => t
  | op :: rest => runOps (stepOp t op).2 rest

/-! ## Helper lemmas -/

/-- A successful association-list lookup means the key occurs in the list. -/
theorem lookup_some_mem_keys {l : List (String × PandasDtype)} {n : String}
    {v : PandasDtype} (h : l.lookup n = some v) : n ∈ l.map Prod.fst := by
  induction l with
  | nil => simp [List.lookup] at h
  | cons p rest ih =>
    rw [List.lookup] at h
    by_cases hk : n = p.1
    · simp [hk]
    · have hbeq : (n == p.1) = false := beq_false_of_ne hk
      rw [hbeq] at h
      simpa using Or.inr (ih h)

/-- A key absent from the association list looks up to `none`. -/
theorem lookup_eq_none_of_not_mem {l : List (String × PandasDtype)}
    {n : String} (h : n ∉ l.map Prod.fst) : l.lookup n = none := by
  cases hl : l.lookup n with
  | none => rfl
  | some v => exact absurd (lookup_some_mem_keys hl) h

/-- Reading operations never change the table state. -/
theorem runOps_preserves (ops : List SchemaOp) :
    ∀ t : List (String × PandasDtype), runOps t ops = t := by
  induction ops with
  | nil => intro t; rfl
  | cons op rest ih =>
    intro t
    cases op with
    | lookupOp n => exact ih t
    | enumerateOp => exact ih t

/-- A lookup that yields a type tag can only have been on a declared name. -/
theorem lookupTag_some_mem {n : String} {t : TypeTag}
    (h : lookupTag n = some t) : n ∈ declaredNames := by
  cases hl : lookupColumn n with
  | none => simp [lookupTag, hl] at h
  | some v => exact lookup_some_mem_keys hl

/-! ## The claims -/

/-- C1: for every one of the 80 declared column names, `Lookup(name)` returns
exactly the type tag the spec's §6 interface gives for that name — the table,
abstracted to type tags, literally equals the spec's reference name-to-type
mapping (same names, same order, same tags). -/
theorem claim_C1_table_equals_spec_reference :
    column_name_types.map (fun p => (p.1, dtypeTag p.2)) =
      specReferenceTable.map (fun p => (p.1, some p.2)) := by decide

/-- C2: the set of uint64-typed columns is exactly
{CalImage, GroupId, Id, ImageX, ImageY, ImageH, ImageW, Ppc, SrcImage, SrcX,
SrcY, SphereComplement, SphereCount, SphereUnknown, SumIntensity}: every name
in that set looks up to uint64 and no other string does. -/
theorem claim_C2_uint64_columns_exact (n : String) :
    lookupTag n = some TypeTag.uint64 ↔ n ∈ specUint64Columns := by
  constructor
  · intro h
    exact (by decide :
        ∀ m ∈ declaredNames, lookupTag m = some TypeTag.uint64 →
          m ∈ specUint64Columns) n (lookupTag_some_mem h) h
  · exact (by decide :
      ∀ m ∈ specUint64Columns, lookupTag m = some TypeTag.uint64) n

/-- C2 witness at the concrete name "CalImage". -/
theorem claim_C2_witness :
    lookupTag "CalImage" = some TypeTag.uint64 ↔ "CalImage" ∈ specUint64Columns :=
  claim_C2_uint64_columns_exact "CalImage"

/-- C3: `Lookup` on "Date", "Time" and "Timestamp" returns the datetime tag,
and every other declared column's tag is one of float32, uint64 or string. -/
theorem claim_C3_datetime_columns :
    (lookupTag "Date" = some TypeTag.datetime ∧
     lookupTag "Time" = some TypeTag.datetime ∧
     lookupTag "Timestamp" = some TypeTag.datetime) ∧
    ∀ n ∈ declaredNames, n ∉ specDatetimeColumns →
      lookupTag n = some TypeTag.float32 ∨ lookupTag n = some TypeTag.uint64 ∨
        lookupTag n = some TypeTag.string := by decide

/-- C3 witness at the concrete name "Name". -/
theorem claim_C3_witness :
    lookupTag "Name" = some TypeTag.float32 ∨
      lookupTag "Name" = some TypeTag.uint64 ∨
      lookupTag "Name" = some TypeTag.string :=
  claim_C3_datetime_columns.2 "Name" (by decide) (by decide)

/-- C4: `Enumerate()` yields exactly 80 entries and the names of the entries
are pairwise distinct. -/
theorem claim_C4_eighty_distinct_names :
    enumerateColumns.length = 80 ∧ (enumerateColumns.map Prod.fst).Nodup := by
  decide

/-- C5: `Enumerate()` yields the entries in insertion order, which is exactly
the order of the spec's §6 full column list (starting Name, AbdArea,
FilledArea, … and ending …, ProbabilityScore, LabelPredicted, LabelTrue). -/
theorem claim_C5_enumeration_order :
    enumerateColumns.map Prod.fst = specFullColumnList := by decide

/-- C6: `Lookup` on any string outside the 80 declared names fails with the
absent-key error (here: returns `none`), and `Lookup` on a declared name
never fails. -/
theorem claim_C6_unknown_column_fails :
    (∀ n : String, n ∉ declaredNames → lookupColumn n = none) ∧
    ∀ n ∈ declaredNames, (lookupColumn n).isSome = true := by
  refine ⟨fun n hn => lookup_eq_none_of_not_mem hn, ?_⟩
  decide

/-- C6 witness: "NotAColumn" fails, the declared "Name" succeeds. -/
theorem claim_C6_witness :
    lookupColumn "NotAColumn" = none ∧ (lookupColumn "Name").isSome = true :=
  ⟨claim_C6_unknown_column_fails.1 "NotAColumn" (by decide),
   claim_C6_unknown_column_fails.2 "Name" (by decide)⟩

/-- C7: every value stored in the table has a tag in the closed four-element
set {float32, uint64, string, datetime} (its semantic kind is defined). -/
theorem claim_C7_four_semantic_kinds :
    ∀ p ∈ column_name_types, (dtypeTag p.2).isSome = true := by decide

/-- C7 witness at the first entry of the table. -/
theorem claim_C7_witness :
    (dtypeTag (PandasDtype.ArrowDtype PaType.string)).isSome = true :=
  claim_C7_four_semantic_kinds ("Name", PandasDtype.ArrowDtype PaType.string)
    (by decide)

/-- C8: the table is immutable under the public interface: any sequence of
`Lookup` and `Enumerate` operations leaves the table equal to its original
definition. -/
theorem claim_C8_table_immutable (ops : List SchemaOp) :
    runOps column_name_types ops = column_name_types :=
  runOps_preserves ops column_name_types

/-- C9: exactly the entries for "Date", "Time" and "Timestamp" store the raw
string "Datetime64[pyarrow]" rather than a `pd.ArrowDtype` value, so a
consumer testing `isinstance(value, pd.ArrowDtype)` distinguishes those three
entries from the other 77. -/
theorem claim_C9_raw_datetime_strings :
    ∀ p ∈ column_name_types,
      (p.2 = PandasDtype.dtypeString "Datetime64[pyarrow]" ↔
        p.1 ∈ specDatetimeColumns) ∧
      (isArrowDtypeValue p.2 = false ↔ p.1 ∈ specDatetimeColumns) := by decide

/-- C9 witness at the "Date" entry. -/
theorem claim_C9_witness :
    (PandasDtype.dtypeString "Datetime64[pyarrow]" =
        PandasDtype.dtypeString "Datetime64[pyarrow]" ↔
      "Date" ∈ specDatetimeColumns) ∧
    (isArrowDtypeValue (PandasDtype.dtypeString "Datetime64[pyarrow]") = false ↔
      "Date" ∈ specDatetimeColumns) :=
  claim_C9_raw_datetime_strings
    ("Date", PandasDtype.dtypeString "Datetime64[pyarrow]") (by decide)

/-- C10: the set of string-typed columns is exactly {Name, CollageFile,
ImageFilename, Uuid, Preprocessing, PreprocessingTrue, LabelPredicted,
LabelTrue} (in particular PreprocessingTrue is string-typed), and exactly 54
of the 80 columns are float32-typed. -/
theorem claim_C10_string_columns_and_float_count :
    (∀ n : String, lookupTag n = some TypeTag.string ↔ n ∈ specStringColumns) ∧
    column_name_types.countP (fun p => dtypeTag p.2 == some TypeTag.float32)
      = 54 := by
  refine ⟨fun n => ⟨fun h => ?_, fun h => ?_⟩, by decide⟩
  · exact (by decide :
        ∀ m ∈ declaredNames, lookupTag m = some TypeTag.string →
          m ∈ specStringColumns) n (lookupTag_some_mem h) h
  · exact (by decide :
      ∀ m ∈ specStringColumns, lookupTag m = some TypeTag.string) n h

/-- C10 witness at the concrete name "PreprocessingTrue". -/
theorem claim_C10_witness :
    lookupTag "PreprocessingTrue" = some TypeTag.string ↔
      "PreprocessingTrue" ∈ specStringColumns :=
  claim_C10_string_columns_and_float_count.1 "PreprocessingTrue"

end LabelCheckerColumns
